import Mathlib

/-!
Verification of the gapandas query engine (`gapandas/query.py`): a shallow
embedding of `run_query`, `get_results`, the response accessors,
`results_to_pandas` and `set_dtypes`, followed by theorems settling the
specification claims about them.  Python dictionaries are modelled so that an
absent key is distinguishable from a present falsy value, exceptions are
modelled with `Except`, and the in-place column mutation of `set_dtypes` is
modelled by returning the frame state alongside the outcome.
-/

namespace Gapandas

/-- A value stored in a query payload dictionary: the code stores strings
(the identifier entry is the string "ga:" followed by the view id) and
integers (the start_index entry). -/
inductive PVal where
  | str (v : String)
  | int (v : Int)
deriving DecidableEq

/-- A Python dictionary used as a query payload, modelled by its lookup
function: a key is present exactly when lookup returns `some`. -/
def Payload : Type := String → Option PVal

/-- Python dict unpacking of two dicts into one, as on source line 46 and
line 371: on a key collision the right-hand dict wins. -/
def pyMerge (a b : Payload) : Payload := fun k =>
  match b k with
  | some v => some v
  | none => a k

/-- A one-entry Python dictionary. -/
def dictOne (k : String) (v : PVal) : Payload := fun q =>
  if q = k then some v else none

/-- The empty payload dictionary. -/
def dictEmpty : Payload := fun _ => none

/-- One cell of a pandas DataFrame built from API rows.  Cells arriving from
the API are strings; `set_dtypes` coerces them.  A float or datetime cell
keeps the text it was parsed from as its payload: no claim depends on float
arithmetic or calendar arithmetic, only on which kind of cell each coercion
branch produces. -/
inductive Cell where
  | s (v : String)
  | i (v : Int)
  | f (lit : String)
  | d (lit : String)
deriving DecidableEq

/-- One row of API data: a list of string cell values. -/
abbrev Row : Type := List String

/-- One entry of the API response's columnHeaders list.  The code reads only
its `name`; the other two attributes are carried for fidelity to the wire
shape described in the spec's data model. -/
structure Header where
  name : String
  columnType : String
  dataType : String
deriving DecidableEq

/-- The response dictionary of one API call, restricted to the keys the
claimed code paths read.  `none` models the key being absent from the dict,
so that a subscript access raises KeyError; a present key holds the value,
which may itself be falsy (an empty list, zero).  The keys the code never
reads on any claimed path (profileInfo, totalsForAllResults) are omitted. -/
structure Results where
  columnHeaders : Option (List Header)
  rows : Option (List Row)
  totalResults : Option Int
  itemsPerPage : Option Int
deriving DecidableEq

/-- Python truthiness of an integer. -/
def pyTruthyInt (n : Int) : Bool := n != 0

/-- Python truthiness of a list. -/
def pyTruthyList {α : Type} (l : List α) : Bool := !l.isEmpty

/-- Python whitespace characters recognized by int() and float(). -/
def isSpaceChar (c : Char) : Bool :=
  c == ' ' || c == '\t' || c == '\n' || c == '\r'

/-- Python's stripping of surrounding whitespace, on the character list of a
string (the numeric constructors strip before parsing). -/
def pyStrip (s : String) : String :=
  String.mk ((((s.toList.dropWhile isSpaceChar).reverse).dropWhile isSpaceChar).reverse)

/-- Numeric value of a decimal digit character. -/
def digitVal (c : Char) : Option Nat :=
  if c.isDigit then some (c.toNat - '0'.toNat) else none

/-- Accumulate decimal digits left to right; fails on a non-digit. -/
def digitsToNat (acc : Nat) : List Char → Option Nat
  | [] => some acc
  | c :: rest =>
    match digitVal c with
    | some d => digitsToNat (10 * acc + d) rest
    | none => none

/-- Parse a nonempty all-digit character list. -/
def parseDigits : List Char → Option Nat
  | [] => none
  | l => digitsToNat 0 l

/-- Model of Python int(s) as applied by astype(int) to a string cell:
optional surrounding whitespace, an optional sign, then one or more decimal
digits; anything else raises ValueError (modelled as `none`). -/
def pyParseInt (s : String) : Option Int :=
  match (pyStrip s).toList with
  | '-' :: rest => (parseDigits rest).map (fun n => -(n : Int))
  | '+' :: rest => (parseDigits rest).map (fun n => (n : Int))
  | l => (parseDigits l).map (fun n => (n : Int))

/-- Whether a character list is all decimal digits. -/
def allDigits : List Char → Bool
  | [] => true
  | c :: rest => c.isDigit && allDigits rest

/-- Shape of an unsigned float literal: digits, optionally with one decimal
point carrying digits on at least one side. -/
def floatBody (l : List Char) : Bool :=
  match l.span (fun c => c != '.') with
  | (a, []) => !a.isEmpty && allDigits a
  | (a, _ :: b) => allDigits a && allDigits b && (!a.isEmpty || !b.isEmpty)

/-- Coarse but executable model of what Python float(s) accepts (no exponent
forms); the claims only need that well-formed numerals parse and that words
do not. -/
def pyIsFloat (s : String) : Bool :=
  match (pyStrip s).toList with
  | '-' :: rest => floatBody rest
  | '+' :: rest => floatBody rest
  | l => floatBody l

/-- Coarse executable model of the strings pd.to_datetime accepts: nonempty,
every character a digit, dash, colon, slash or space.  No claim depends on
date parsing succeeding or failing on any particular input. -/
def dateish (s : String) : Bool :=
  !s.toList.isEmpty && s.toList.all (fun c => c.isDigit || c == '-' || c == ':' || c == '/' || c == ' ')

/-- The `integer_dtype` field-name list of `set_dtypes` (copied verbatim from the source). -/
def integer_dtype : List String := [
  "sessionCount", "daysSinceLastSession", "userBucket", "users", "newUsers", "1dayUsers",
  "7dayUsers", "14dayUsers", "28dayUsers", "30dayUsers", "sessionDurationBucket", "sessions",
  "bounces", "uniqueDimensionCombinations", "hits", "organicSearches", "impressions",
  "adclicks", "goal1Starts", "goal2Starts", "goal3Starts", "goal4Starts", "goal5Starts",
  "goal6Starts", "goal7Starts", "goal8Starts", "goal9Starts", "goal10Starts", "goal11Starts",
  "goal12Starts", "goal13Starts", "goal14Starts", "goal15Starts", "goal16Starts",
  "goal17Starts", "goal18Starts", "goal19Starts", "goal20Starts", "goal1Completions",
  "goal2Completions", "goal3Completions", "goal4Completions", "goal5Completions",
  "goal6Completions", "goal7Completions", "goal8Completions", "goal9Completions",
  "goal10Completions", "goal11Completions", "goal12Completions", "goal13Completions",
  "goal14Completions", "goal15Completions", "goal16Completions", "goal17Completions",
  "goal18Completions", "goal19Completions", "goal20Completions", "goalCompletionsAll",
  "goalStartsAll", "goal1Abandons", "goal2Abandons", "goal3Abandons", "goal4Abandons",
  "goal5Abandons", "goal6Abandons", "goal7Abandons", "goal8Abandons", "goal9Abandons",
  "goal10Abandons", "goal11Abandons", "goal12Abandons", "goal13Abandons", "goal14Abandons",
  "goal15Abandons", "goal16Abandons", "goal17Abandons", "goal18Abandons", "goal19Abandons",
  "goal20Abandons", "goalAbandonsAll", "pageDepth", "entrances", "pageviews", "uniquePageviews",
  "exits", "searchResultViews", "searchUniques", "searchSessions", "searchDepth",
  "searchRefinements", "searchExits", "pageLoadTime", "pageLoadSample", "domainLookupTime",
  "pageDownloadTime", "redirectionTime", "serverConnectionTime", "serverResponseTime",
  "speedMetricsSample", "domInteractiveTime", "domContentLoadedTime", "domLatencyMetricsSample",
  "screenviews", "uniqueScreenviews", "sessionsWithEvent", "sessionsToTransaction",
  "daysToTransaction", "transactions", "itemQuantity", "uniquePurchases",
  "internalPromotionClicks", "internalPromotionViews", "productAddsToCart", "productCheckouts",
  "productDetailViews", "productListClicks", "productListViews", "productRefunds",
  "productRemovesFromCart", "quantityAddedToCart", "quantityCheckedOut", "quantityRefunded",
  "quantityRemovedFromCart", "totalRefunds", "socialInteractions", "uniqueSocialInteractions",
  "userTimingValue", "userTimingSample", "exceptions", "fatalExceptions", "dimension1",
  "dimension2", "dimension3", "dimension4", "dimension5", "dimension6", "dimension7",
  "dimension8", "dimension9", "dimension10", "dimension11", "dimension12", "dimension13",
  "dimension14", "dimension15", "dimension16", "dimension17", "dimension18", "dimension19",
  "dimension20", "customMetric1", "customMetric2", "customMetric3", "customMetric4",
  "customMetric5", "customMetric6", "customMetric7", "customMetric8", "customMetric9",
  "customMetric10", "customMetric11", "customMetric12", "customMetric13", "customMetric14",
  "customMetric15", "customMetric16", "customMetric17", "customMetric18", "customMetric19",
  "customMetric20", "year", "month", "week", "day", "hour", "minute", "nthMonth", "nthWeek",
  "nthDay", "nthMinute", "dayOfWeek", "isoWeek", "isoYear", "isoYearIsoWeek", "nthHour",
  "dcmFloodlightQuantity", "dcmClicks", "dcmImpressions", "adsenseAdUnitsViewed",
  "adsenseAdsViewed", "adsenseAdsClicks", "adsensePageImpressions", "adsenseExits",
  "totalPublisherImpressions", "totalPublisherMonetizedPageviews", "totalPublisherClicks",
  "backfillImpressions", "backfillMonetizedPageviews", "backfillClicks", "dfpImpressions",
  "dfpMonetizedPageviews", "dfpClicks", "cohortNthDay", "cohortNthMonth", "cohortNthWeek",
  "cohortActiveUsers", "cohortTotalUsers", "cohortTotalUsersWithLifetimeCriteria", "dbmClicks",
  "dbmConversions", "dbmImpressions", "dsCost", "dsImpressions"]

/-- The `float_dtype` field-name list of `set_dtypes` (copied verbatim from the source). -/
def float_dtype : List String := [
  "percentNewSessions", "sessionsPerUser", "bounceRate", "adCost", "CPM", "CPC", "CTR",
  "costPerTransaction", "costPerGoalConversion", "RPC", "ROAS", "goal1Value", "goal2Value",
  "goal3Value", "goal4Value", "goal5Value", "goal6Value", "goal7Value", "goal8Value",
  "goal9Value", "goal10Value", "goal11Value", "goal12Value", "goal13Value", "goal14Value",
  "goal15Value", "goal16Value", "goal17Value", "goal18Value", "goal19Value", "goal20Value",
  "goalValueAll", "goalValuePerSession", "goal1ConversionRate", "goal2ConversionRate",
  "goal3ConversionRate", "goal4ConversionRate", "goal5ConversionRate", "goal6ConversionRate",
  "goal7ConversionRate", "goal8ConversionRate", "goal9ConversionRate", "goal10ConversionRate",
  "goal11ConversionRate", "goal12ConversionRate", "goal13ConversionRate",
  "goal14ConversionRate", "goal15ConversionRate", "goal16ConversionRate",
  "goal17ConversionRate", "goal18ConversionRate", "goal19ConversionRate",
  "goal20ConversionRate", "goalConversionRateAll", "goal1AbandonRate", "goal2AbandonRate",
  "goal3AbandonRate", "goal4AbandonRate", "goal5AbandonRate", "goal6AbandonRate",
  "goal7AbandonRate", "goal8AbandonRate", "goal9AbandonRate", "goal10AbandonRate",
  "goal11AbandonRate", "goal12AbandonRate", "goal13AbandonRate", "goal14AbandonRate",
  "goal15AbandonRate", "goal16AbandonRate", "goal17AbandonRate", "goal18AbandonRate",
  "goal19AbandonRate", "goal20AbandonRate", "goalAbandonRateAll", "latitude", "longitude",
  "pageValue", "entranceRate", "pageviewsPerSession", "exitRate", "avgSearchResultViews",
  "percentSessionsWithSearch", "avgSearchDepth", "percentSearchRefinements", "searchExitRate",
  "searchGoalConversionRateAll", "goalValueAllPerSearch", "searchGoal1ConversionRate",
  "searchGoal2ConversionRate", "searchGoal3ConversionRate", "searchGoal4ConversionRate",
  "searchGoal5ConversionRate", "searchGoal6ConversionRate", "searchGoal7ConversionRate",
  "searchGoal8ConversionRate", "searchGoal9ConversionRate", "searchGoal10ConversionRate",
  "searchGoal11ConversionRate", "searchGoal12ConversionRate", "searchGoal13ConversionRate",
  "searchGoal14ConversionRate", "searchGoal15ConversionRate", "searchGoal16ConversionRate",
  "searchGoal17ConversionRate", "searchGoal18ConversionRate", "searchGoal19ConversionRate",
  "searchGoal20ConversionRate", "avgPageLoadTime", "avgDomainLookupTime", "avgPageDownloadTime",
  "avgRedirectionTime", "avgServerConnectionTime", "avgServerResponseTime",
  "avgDomInteractiveTime", "avgDomContentLoadedTime", "avgDomLatencyMetricsSample",
  "screenviewsPerSession", "avgScreenviewDuration", "eventValue", "eventsPerSessionWithEvent",
  "transactionsPerSession", "transactionRevenue", "revenuePerTransaction",
  "transactionRevenuePerSession", "transactionShipping", "transactionTax", "totalValue",
  "revenuePerItem", "itemRevenue", "itemsPerPurchase", "localTransactionRevenue",
  "localTransactionShipping", "localTransactionTax", "localItemRevenue", "buyToDetailRate",
  "cartToDetailRate", "internalPromotionCTR", "localProductRefundAmount", "localRefundAmount",
  "productListCTR", "productRefundAmount", "productRevenuePerPurchase", "refundAmount",
  "revenuePerUser", "transactionsPerUser", "socialInteractionsPerSession", "avgUserTimingValue",
  "exceptionsPerScreenview", "fatalExceptionsPerScreenview", "dcmFloodlightRevenue", "dcmCPC",
  "dcmCTR", "dcmCost", "dcmROAS", "dcmRPC", "adsenseRevenue", "adsenseCTR", "adsenseECPM",
  "adsenseViewableImpressionPercent", "adsenseCoverage", "totalPublisherCoverage",
  "totalPublisherImpressionsPerSession", "totalPublisherECPM",
  "totalPublisherViewableImpressionsPercent", "totalPublisherCTR", "totalPublisherRevenue",
  "totalPublisherRevenuePer1000Sessions", "adxImpressions", "adxMonetizedPageviews",
  "adxClicks", "adxCoverage", "adxImpressionsPerSession", "adxViewableImpressionsPercent",
  "adxCTR", "adxRevenue", "adxRevenuePer1000Sessions", "adxECPM", "backfillCoverage",
  "backfillImpressionsPerSession", "backfillViewableImpressionsPercent", "backfillCTR",
  "backfillRevenue", "backfillECPM", "backfillRevenuePer1000Sessions", "dfpCoverage",
  "dfpImpressionsPerSession", "dfpViewableImpressionsPercent", "dfpCTR", "dfpRevenue",
  "dfpRevenuePer1000Sessions", "dfpECPM", "cohortAppviewsPerUser",
  "cohortAppviewsPerUserWithLifetimeCriteria", "cohortGoalCompletionsPerUser",
  "cohortGoalCompletionsPerUserWithLifetimeCriteria", "cohortPageviewsPerUser",
  "cohortPageviewsPerUserWithLifetimeCriteria", "cohortRetentionRate", "cohortRevenuePerUser",
  "cohortRevenuePerUserWithLifetimeCriteria", "cohortSessionDurationPerUser",
  "cohortSessionDurationPerUserWithLifetimeCriteria", "cohortSessionsPerUser",
  "cohortSessionsPerUserWithLifetimeCriteria", "dbmCPA", "dbmCPC", "dbmCPM", "dbmCTR",
  "dbmCost", "dbmROAS", "dsCPC", "dsCTR", "dsProfit", "dsReturnOnAdSpend", "dsRevenuePerClick"]

/-- The `string_dtype` field-name list of `set_dtypes` (copied verbatim from the source). -/
def string_dtype : List String := [
  "userType", "userDefinedValue", "referralPath", "fullReferrer", "campaign", "source",
  "medium", "sourceMedium", "keyword", "adContent", "socialNetwork", "hasSocialSourceReferral",
  "campaignCode", "adGroup", "adSlot", "adDistributionNetwork", "adMatchType",
  "adKeywordMatchType", "adMatchedQuery", "adPlacementDomain", "adPlacementUrl", "adFormat",
  "adTargetingType", "adTargetingOption", "adDisplayUrl", "adDestinationUrl",
  "adwordsCustomerID", "adwordsCampaignID", "adwordsAdGroupID", "adwordsCreativeID",
  "adwordsCriteriaID", "adQueryWordCount", "isTrueViewVideoAd", "goalCompletionLocation",
  "goalPreviousStep1", "goalPreviousStep2", "goalPreviousStep3", "browser", "browserVersion",
  "operatingSystem", "operatingSystemVersion", "mobileDeviceBranding", "mobileDeviceModel",
  "mobileDeviceInputSelector", "mobileDeviceInfo", "mobileDeviceMarketingName",
  "deviceCategory", "browserSize", "dataSource", "continent", "subContinent", "country",
  "region", "metro", "city", "networkDomain", "cityId", "continentId", "countryIsoCode",
  "metroId", "regionId", "regionIsoCode", "subContinentCode", "flashVersion", "javaEnabled",
  "language", "screenColors", "sourcePropertyDisplayName", "sourcePropertyTrackingId",
  "screenResolution", "hostname", "pagePath", "pagePathLevel1", "pagePathLevel2",
  "pagePathLevel3", "pagePathLevel4", "pageTitle", "landingPagePath", "secondPagePath",
  "exitPagePath", "previousPagePath", "searchUsed", "searchKeyword", "searchKeywordRefinement",
  "searchCategory", "searchStartPage", "searchDestinationPage", "searchAfterDestinationPage",
  "appInstallerId", "appVersion", "appName", "appId", "screenName", "screenDepth",
  "landingScreenName", "exitScreenName", "eventCategory", "eventAction", "eventLabel",
  "transactionId", "affiliation", "productSku", "productName", "productCategory",
  "currencyCode", "checkoutOptions", "internalPromotionCreative", "internalPromotionId",
  "internalPromotionName", "internalPromotionPosition", "orderCouponCode", "productBrand",
  "productCategoryHeirarchy", "productCouponCode", "productListName", "productListPosition",
  "productVariant", "shoppingStage", "socialInteractionNetwork", "socialInteractionAction",
  "socialInteractionNetworkAction", "socialInteractionTarget", "socialEngagementType",
  "userTimingCategory", "userTimingLabel", "userTimingVariable", "exceptionDescription",
  "experimentId", "experimentVariant", "experimentCombination", "experimentName",
  "customVarName1", "customVarName2", "customVarName3", "customVarName4", "customVarName5",
  "customVarName6", "customVarName7", "customVarName8", "customVarName9", "customVarName10",
  "customVarName11", "customVarName12", "customVarName13", "customVarName14", "customVarName15",
  "customVarName16", "customVarName17", "customVarName18", "customVarName19", "customVarName20",
  "customVarValue1", "customVarValue2", "customVarValue3", "customVarValue4", "customVarValue5",
  "customVarValue6", "customVarValue7", "customVarValue8", "customVarValue9",
  "customVarValue10", "customVarValue11", "customVarValue12", "customVarValue13",
  "customVarValue14", "customVarValue15", "customVarValue16", "customVarValue17",
  "customVarValue18", "customVarValue19", "customVarValue20", "dayOfWeekName", "dateHour",
  "dateHourMinute", "yearMonth", "yearWeek", "dcmClickAd", "dcmClickAdId", "dcmClickAdType",
  "dcmClickAdTypeId", "ga:dcmClickAdvertiser", "dcmClickAdvertiserId", "dcmClickCampaign",
  "dcmClickCampaignId", "dcmClickCreative", "dcmClickCreativeId", "dcmClickRenderingId",
  "dcmClickCreativeType", "dcmClickCreativeTypeId", "dcmClickCreativeVersion", "dcmClickSite",
  "dcmClickSiteId", "dcmClickSitePlacement", "dcmClickSitePlacementId", "dcmClickSpotId",
  "dcmFloodlightActivity", "dcmFloodlightActivityAndGroup", "dcmFloodlightActivityGroup",
  "dcmFloodlightActivityGroupId", "dcmFloodlightActivityId", "dcmFloodlightAdvertiserId",
  "dcmFloodlightSpotId", "dcmLastEventAd", "dcmLastEventAdId", "dcmLastEventAdType",
  "dcmLastEventAdTypeId", "dcmLastEventAdvertiser", "dcmLastEventAdvertiserId",
  "dcmLastEventAttributionType", "dcmLastEventCampaign", "dcmLastEventCampaignId",
  "dcmLastEventCreative", "dcmLastEventCreativeId", "dcmLastEventRenderingId",
  "dcmLastEventCreativeType", "dcmLastEventCreativeTypeId", "dcmLastEventCreativeVersion",
  "dcmLastEventSite", "dcmLastEventSiteId", "dcmLastEventSitePlacement",
  "dcmLastEventSitePlacementId", "dcmLastEventSpotId", "userAgeBracket", "userGender",
  "interestOtherCategory", "interestAffinityCategory", "interestInMarketCategory",
  "dfpLineItemId", "dfpLineItemName", "acquisitionCampaign", "acquisitionMedium",
  "acquisitionSource", "acquisitionSourceMedium", "acquisitionTrafficChannel", "cohort",
  "channelGrouping", "dbmClickAdvertiser", "dbmClickAdvertiserId", "dbmClickCreativeId",
  "dbmClickExchange", "dbmClickExchangeId", "dbmClickInsertionOrder",
  "dbmClickInsertionOrderId", "dbmClickLineItem", "dbmClickLineItemId", "dbmClickSite",
  "dbmClickSiteId", "dbmLastEventAdvertiser", "dbmLastEventAdvertiserId",
  "dbmLastEventCreativeId", "dbmLastEventExchange", "dbmLastEventExchangeId",
  "dbmLastEventInsertionOrder", "dbmLastEventInsertionOrderId", "dbmLastEventLineItem",
  "dbmLastEventLineItemId", "dbmLastEventSite", "dbmLastEventSiteId", "dsAdGroup",
  "dsAdGroupId", "dsAdvertiser", "dsAdvertiserId", "dsAgency", "dsAgencyId", "dsCampaign",
  "dsCampaignId", "dsEngineAccount", "dsEngineAccountId", "dsKeyword", "dsKeywordId"]

/-- The `date_dtype` field-name list of `set_dtypes` (copied verbatim from the source). -/
def date_dtype : List String := [
  "date"]

/-- The `time_dtype` field-name list of `set_dtypes` (copied verbatim from the source). -/
def time_dtype : List String := [
  "time", "avgSessionDuration", "timeOnPage", "avgTimeOnPage", "searchDuration", "timeOnScreen"]

/-- The five coercion branches of the `set_dtypes` if/elif chain, plus the
final else branch that leaves a column untouched. -/
inductive Dtype where
  | int
  | float
  | date
  | str
  | time
  | keep
deriving DecidableEq

/-- The if/elif dispatch of `set_dtypes` (source lines 311-322), membership
tests in source order. -/
def dtypeOf (column : String) : Dtype :=
  if integer_dtype.contains column then .int
  else if float_dtype.contains column then .float
  else if date_dtype.contains column then .date
  else if string_dtype.contains column then .str
  else if time_dtype.contains column then .time
  else .keep

/-- Python str(cell) as produced by astype(str): strings unchanged, an
integer renders in decimal, float and datetime cells render as their stored
text. -/
def pyStr : Cell → String
  | .s v => v
  | .i n => toString n
  | .f lit => lit
  | .d lit => lit

/-- Integer part of a float literal (astype(int) truncates a float toward
zero); only reachable through the pandas corner case of an integer coercion
applied to an existing float cell, which no claim exercises. -/
def floatLitTrunc (lit : String) : Option Int :=
  pyParseInt (String.mk (lit.toList.takeWhile (fun c => c != '.')))

/-- One cell under one branch of the `set_dtypes` coercion: astype(int),
astype(float), pd.to_datetime, astype(str), or the identity else branch.
`Except.error` models the pandas conversion exception (ValueError on
malformed numeric text).  Mixed-kind corners that no claim exercises (a
datetime cell reaching a numeric coercion) are modelled as failures. -/
def coerceCell : Dtype → Cell → Except String Cell
  | .int, .s v =>
    match pyParseInt v with
    | some n => .ok (.i n)
    | none => .error "ValueError: invalid literal for int"
  | .int, .i n => .ok (.i n)
  | .int, .f lit =>
    match floatLitTrunc lit with
    | some n => .ok (.i n)
    | none => .error "ValueError: cannot truncate"
  | .int, .d _ => .error "TypeError: datetime to int"
  | .float, .s v =>
    if pyIsFloat v then .ok (.f (pyStrip v))
    else .error "ValueError: could not convert string to float"
  | .float, .i n => .ok (.f (toString n))
  | .float, .f lit => .ok (.f lit)
  | .float, .d _ => .error "TypeError: datetime to float"
  | .date, .s v => if dateish v then .ok (.d v) else .error "ValueError: unknown datetime string"
  | .date, .i n => .ok (.d (toString n))
  | .date, .f lit => .ok (.d lit)
  | .date, .d lit => .ok (.d lit)
  | .str, c => .ok (.s (pyStr c))
  | .time, c => .ok (.s (pyStr c))
  | .keep, c => .ok c

/-- A whole-column astype or to_datetime call: pandas converts every cell of
the column or raises without assigning anything, so a column either converts
entirely or fails with no partial effect on the frame. -/
def coerceColumn (d : Dtype) : List Cell → Except String (List Cell)
  | [] => .ok []
  | c :: rest =>
    match coerceCell d c with
    | .error e => .error e
    | .ok c2 =>
      match coerceColumn d rest with
      | .error e => .error e
      | .ok rest2 => .ok (c2 :: rest2)

/-- A pandas DataFrame: named columns in order, each an ordered list of
cells.  Row-aligned data is stored column-wise because `set_dtypes` reads and
writes whole columns. -/
abbrev DataFrame : Type := List (String × List Cell)

/-- The `set_dtypes` loop (source lines 310-323).  The Python function
mutates `df` in place, one column at a time in column order, and an astype
failure propagates as an exception; the `Except.error` payload is the state
of the caller's frame at the moment the exception escapes, namely columns
before the failing one already coerced, the failing column and all later ones
untouched. -/
def set_dtypes : DataFrame → Except DataFrame DataFrame
  | [] => .ok []
  | (name, cells) :: rest =>
    match coerceColumn (dtypeOf name) cells with
    | .error _ => .error ((name, cells) :: rest)
    | .ok cells2 =>
      match set_dtypes rest with
      | .ok rest2 => .ok ((name, cells2) :: rest2)
      | .error rest2 => .error ((name, cells2) :: rest2)

/-- Python replace of the three-character pattern g a colon by the empty
string, on a character list: removes every non-overlapping occurrence,
scanning left to right.  Note the source performs substring replacement, not
strip-up-to-first-colon. -/
def replaceGa : List Char → List Char
  | c1 :: c2 :: c3 :: rest =>
    if c1 = 'g' ∧ c2 = 'a' ∧ c3 = ':' then replaceGa rest
    else c1 :: replaceGa (c2 :: c3 :: rest)
  | l => l

/-- The header-name transformation of `results_to_pandas` (source line 337). -/
def stripGaStr (s : String) : String := String.mk (replaceGa s.toList)

/-- Whether the three-character pattern g a colon occurs in a character
list. -/
def hasGa : List Char → Bool
  | c1 :: c2 :: c3 :: rest =>
    if c1 = 'g' ∧ c2 = 'a' ∧ c3 = ':' then true
    else hasGa (c2 :: c3 :: rest)
  | _ => false

/-- `get_total_results` (source lines 73-81): KeyError if the key is absent;
returns the value when truthy, otherwise falls off the end and returns
None. -/
def get_total_results (results : Results) : Except String (Option Int) :=
  match results.totalResults with
  | none => .error "KeyError: totalResults"
  | some n => .ok (if pyTruthyInt n then some n else none)

/-- `get_items_per_page` (source lines 84-92). -/
def get_items_per_page (results : Results) : Except String (Option Int) :=
  match results.itemsPerPage with
  | none => .error "KeyError: itemsPerPage"
  | some n => .ok (if pyTruthyInt n then some n else none)

/-- math.ceil of an exact integer quotient, used for positive divisors (the
only case `get_total_pages` reaches without raising ZeroDivisionError).
Python computes this through float division, exact at the magnitudes the API
can return.  Lean's integer division is Euclidean, which agrees with floor
division for a positive divisor, making this the usual ceiling formula. -/
def pyCeilDiv (a b : Int) : Int := (a + b - 1) / b

/-- `get_total_pages` (source lines 95-103): guarded by the truthiness of
totalResults, then computes the ceiling of totalResults over itemsPerPage
from the raw dictionary values; raises KeyError on an absent key and
ZeroDivisionError when itemsPerPage is zero. -/
def get_total_pages (results : Results) : Except String (Option Int) :=
  match results.totalResults with
  | none => .error "KeyError: totalResults"
  | some t =>
    if pyTruthyInt t then
      match results.itemsPerPage with
      | none => .error "KeyError: itemsPerPage"
      | some ipp =>
        if ipp = 0 then .error "ZeroDivisionError: division by zero"
        else .ok (some (pyCeilDiv t ipp))
    else .ok none

/-- `get_rows` (source lines 117-125): KeyError if rows is absent; returns
the list when nonempty, otherwise None. -/
def get_rows (results : Results) : Except String (Option (List Row)) :=
  match results.rows with
  | none => .error "KeyError: rows"
  | some rows => .ok (if pyTruthyList rows then some rows else none)

/-- `get_column_headers` (source lines 128-136). -/
def get_column_headers (results : Results) : Except String (Option (List Header)) :=
  match results.columnHeaders with
  | none => .error "KeyError: columnHeaders"
  | some chs => .ok (if pyTruthyList chs then some chs else none)

/-- The header loop of `results_to_pandas` (source lines 335-338): an
accumulator list extended with each transformed header name in order. -/
def headingsOf (column_headers : List Header) : List String :=
  column_headers.foldl (fun headings h => headings ++ [stripGaStr h.name]) []

/-- The DataFrame constructor call of source line 343: column j collects the
j-th cell of every row, as a string cell.  Rows shorter than the heading list
would be padded by pandas with NaN; that corner, which no claim exercises, is
modelled by an empty-string cell. -/
def mkDataFrame (headings : List String) (rows : List Row) : DataFrame :=
  headings.enum.map (fun p => (p.2, rows.map (fun r => Cell.s (r.getD p.1 ""))))

/-- `results_to_pandas` (source lines 326-344).  A `none` success value is
the Python function running off the end and returning None (an absent
table); an `Except.error` is an uncaught exception: KeyError from a subscript
on an absent key, or a conversion error escaping `set_dtypes`. -/
def results_to_pandas (results : Results) : Except String (Option DataFrame) :=
  match results.columnHeaders with
  | none => .error "KeyError: columnHeaders"
  | some column_headers =>
    if pyTruthyList column_headers then
      match results.rows with
      | none => .error "KeyError: rows"
      | some rows =>
        if pyTruthyList rows then
          match set_dtypes (mkDataFrame (headingsOf column_headers) rows) with
          | .error _ => .error "ValueError escaping set_dtypes"
          | .ok df => .ok (some df)
        else .ok none
    else .ok none

/-- The injected query-executor capability: one remote call from a payload to
a response dictionary, which may fail with a transport, auth or quota
error. -/
abbrev Executor : Type := Payload → Except String Results

/-- The payload update of source lines 370-371: the merge of the dictionary
holding the one-based start offset into the running payload (the Python local
reassignment of final_payload is expressed by passing the merged payload to
the next iteration). -/
def nextPayload (final_payload : Payload) (start_index : Int) : Payload :=
  pyMerge final_payload (dictOne "start_index" (.int (start_index + 1)))

/-- The pagination while-loop of `get_results` (source lines 365-379), with
an explicit fuel argument for termination.  The wrapper passes enough fuel
for every positive step; exhaustion models the divergence a non-positive
step would cause in Python and is unreachable in every theorem below.
Returns the payloads sent, in order, and either the accumulated row list or
the first escaping exception.  Per the source, the rows of each fetched page
pass through `get_rows`, whose None return for an empty page makes the
list-plus-None concatenation raise TypeError; a None items_per_page raises
TypeError one line later, when the cursor is advanced. -/
def pageLoop (exec : Executor) (total_results : Int) (items_per_page : Option Int) :
    Nat → Int → Payload → List Row → List Payload × Except String (List Row)
  | 0, start_index, _, all_rows =>
    ([], if start_index ≤ total_results then .error "model: out of fuel" else .ok all_rows)
  | fuel + 1, start_index, final_payload, all_rows =>
    if start_index ≤ total_results then
      match exec (nextPayload final_payload start_index) with
      | .error e => ([nextPayload final_payload start_index], .error e)
      | .ok next_results =>
        match get_rows next_results with
        | .error e => ([nextPayload final_payload start_index], .error e)
        | .ok none =>
          ([nextPayload final_payload start_index],
            .error "TypeError: can only concatenate list (not NoneType) to list")
        | .ok (some next_rows) =>
          match items_per_page with
          | none =>
            ([nextPayload final_payload start_index],
              .error "TypeError: unsupported operand types int and NoneType")
          | some ipp =>
            (nextPayload final_payload start_index ::
              (pageLoop exec total_results items_per_page fuel (ipp + start_index)
                (nextPayload final_payload start_index) (all_rows ++ next_rows)).1,
              (pageLoop exec total_results items_per_page fuel (ipp + start_index)
                (nextPayload final_payload start_index) (all_rows ++ next_rows)).2)
    else ([], .ok all_rows)

/-- `get_results` (source lines 347-387).  Returns the payloads passed to the
executor, in order (the initial metadata call first), and the merged result
or the first escaping exception.  When `get_total_pages` returned None the
Python comparison of None with 1 on source line 363 raises TypeError. -/
def get_results (exec : Executor) (final_payload : Payload) :
    List Payload × Except String Results :=
  match exec final_payload with
  | .error e => ([final_payload], .error e)
  | .ok results =>
    match get_total_results results with
    | .error e => ([final_payload], .error e)
    | .ok total_results =>
      match get_total_pages results with
      | .error e => ([final_payload], .error e)
      | .ok total_pages =>
        match get_items_per_page results with
        | .error e => ([final_payload], .error e)
        | .ok items_per_page =>
          match total_pages with
          | none =>
            ([final_payload], .error "TypeError: not supported between NoneType and int")
          | some tp =>
            if tp > 1 then
              match total_results with
              | none =>
                ([final_payload], .error "TypeError: not supported between int and NoneType")
              | some total =>
                (final_payload ::
                  (pageLoop exec total items_per_page (total.toNat + 2) 0 final_payload []).1,
                  match (pageLoop exec total items_per_page (total.toNat + 2) 0 final_payload []).2 with
                  | .error e => .error e
                  | .ok all_rows => .ok { results with rows := some all_rows })
            else ([final_payload], .ok results)

/-- Source lines 45-46 of `run_query`: the merge of the required identifier
entry with the caller's payload.  Python dict-unpacking order means a
caller-supplied key wins every collision, including on the identifier key
itself. -/
def mk_final_payload (view_id : String) (payload : Payload) : Payload :=
  pyMerge (dictOne "ids" (.str ("ga:" ++ view_id))) payload

/-- The two shapes a successful `run_query` hands back: a DataFrame in df
output mode, or the raw merged result dictionary. -/
abbrev RunValue : Type := DataFrame ⊕ Results

/-- `run_query` (source lines 27-58).  The try/except swallows every
exception from the query and from normalization, prints a message and falls
off the end, so the Python function returns None both on failure and when
`results_to_pandas` found no data; both outcomes are `none` here.  The first
component is the list of payloads sent to the executor. -/
def run_query (exec : Executor) (view_id : String) (payload : Payload)
    (output : String) : List Payload × Option RunValue :=
  let r := get_results exec (mk_final_payload view_id payload)
  (r.1,
    match r.2 with
    | .error _ => none
    | .ok results =>
      if output = "df" then
        match results_to_pandas results with
        | .error _ => none
        | .ok none => none
        | .ok (some df) => some (Sum.inl df)
      else some (Sum.inr results))


/-! ## Helper lemmas shared between claims -/

/-- The ceiling of `t` over `k` is at most one when `1 ≤ t ≤ k`: this is the
arithmetic fact behind the single-page branch of `get_results`. -/
theorem pyCeilDiv_le_one (t k : Int) (h1 : 1 ≤ t) (h2 : t ≤ k) : pyCeilDiv t k ≤ 1 := by
  have hk : 0 < k := by omega
  unfold pyCeilDiv
  have hdm := Int.ediv_add_emod (t + k - 1) k
  have hm0 : 0 ≤ (t + k - 1) % k := Int.emod_nonneg _ (by omega)
  by_contra hq
  push_neg at hq
  have hq2 : 2 ≤ (t + k - 1) / k := by omega
  have hmul : 2 * k ≤ k * ((t + k - 1) / k) := by
    calc 2 * k = k * 2 := by ring
    _ ≤ k * ((t + k - 1) / k) := by
        exact mul_le_mul_of_nonneg_left hq2 (le_of_lt hk)
  omega

/-- The ceiling of `t` over `k` is at least one when `t` is positive. -/
theorem one_le_pyCeilDiv (t k : Int) (h1 : 1 ≤ t) (h2 : 0 < k) : 1 ≤ pyCeilDiv t k := by
  unfold pyCeilDiv
  have hdm := Int.ediv_add_emod (t + k - 1) k
  have hml : (t + k - 1) % k < k := Int.emod_lt_of_pos _ h2
  by_contra hq
  push_neg at hq
  have hq0 : (t + k - 1) / k ≤ 0 := by omega
  have hmul : k * ((t + k - 1) / k) ≤ k * 0 :=
    mul_le_mul_of_nonneg_left hq0 (le_of_lt h2)
  omega

/-- A character list with no occurrence of the pattern is left unchanged by
the replacement. -/
theorem replaceGa_of_not_hasGa (l : List Char) (h : hasGa l = false) : replaceGa l = l := by
  induction l using replaceGa.induct with
  | case1 c1 c2 c3 rest hcond ih =>
    rw [hasGa, if_pos hcond] at h
    cases h
  | case2 c1 c2 c3 rest hcond ih =>
    rw [hasGa, if_neg hcond] at h
    rw [replaceGa, if_neg hcond, ih h]
  | case3 l hshape =>
    rw [replaceGa]
    exact hshape

/-- A string with no occurrence of the pattern is a fixed point of
`stripGaStr`. -/
theorem stripGaStr_of_not_hasGa (s : String) (h : hasGa s.toList = false) :
    stripGaStr s = s := by
  unfold stripGaStr
  rw [replaceGa_of_not_hasGa _ h]
  rfl

/-- The header loop of `results_to_pandas` computes exactly the map of the
name transformation over the headers, in order. -/
theorem headingsOf_eq_map (chs : List Header) :
    headingsOf chs = chs.map (fun h => stripGaStr h.name) := by
  have aux : ∀ (l : List Header) (acc : List String),
      l.foldl (fun hs h => hs ++ [stripGaStr h.name]) acc
        = acc ++ l.map (fun h => stripGaStr h.name) := by
    intro l
    induction l with
    | nil => intro acc; simp
    | cons h t ih => intro acc; simp [ih]
  simpa [headingsOf] using aux chs []

/-- A cell produced by a successful coercion branch is a fixed point of that
branch. -/
theorem coerceCell_idem (d : Dtype) (c c2 : Cell) (h : coerceCell d c = .ok c2) :
    coerceCell d c2 = .ok c2 := by
  cases d <;> cases c <;>
    simp only [coerceCell] at h <;>
    (try split at h) <;>
    (try (injection h with h2; subst h2)) <;>
    simp_all [coerceCell, pyStr]

/-- A column produced by a successful whole-column coercion is a fixed point
of that coercion. -/
theorem coerceColumn_idem (d : Dtype) (cs : List Cell) :
    ∀ cs2, coerceColumn d cs = .ok cs2 → coerceColumn d cs2 = .ok cs2 := by
  induction cs with
  | nil =>
    intro cs2 h
    simp only [coerceColumn] at h
    cases h
    simp [coerceColumn]
  | cons c rest ih =>
    intro cs2 h
    simp only [coerceColumn] at h
    cases hc : coerceCell d c with
    | error e => rw [hc] at h; cases h
    | ok c2 =>
      rw [hc] at h
      cases hr : coerceColumn d rest with
      | error e => rw [hr] at h; cases h
      | ok rest2 =>
        rw [hr] at h
        cases h
        simp only [coerceColumn]
        rw [coerceCell_idem d c c2 hc, ih rest2 hr]

/-! ## C9: type coercion is idempotent -/

/-- C9 (confirmed): on every structured table on which `set_dtypes` succeeds,
running `set_dtypes` again on the coerced table succeeds and returns the
coerced table unchanged. -/
theorem c9_set_dtypes_idempotent (df : DataFrame) :
    ∀ df2, set_dtypes df = .ok df2 → set_dtypes df2 = .ok df2 := by
  induction df with
  | nil =>
    intro df2 h
    simp only [set_dtypes] at h
    cases h
    simp [set_dtypes]
  | cons col rest ih =>
    obtain ⟨name, cells⟩ := col
    intro df2 h
    simp only [set_dtypes] at h
    cases hc : coerceColumn (dtypeOf name) cells with
    | error e => rw [hc] at h; cases h
    | ok cells2 =>
      rw [hc] at h
      cases hr : set_dtypes rest with
      | error r2 => rw [hr] at h; cases h
      | ok rest2 =>
        rw [hr] at h
        cases h
        simp only [set_dtypes]
        rw [coerceColumn_idem _ _ _ hc, ih rest2 hr]

/-- Witness for C9: a concrete coerced table is a fixed point of
`set_dtypes`, obtained by applying the idempotence theorem to the table it
was coerced from. -/
theorem c9_witness :
    set_dtypes [("sessions", [Cell.i 42]), ("bounceRate", [Cell.f "3.14"]),
      ("customThing", [Cell.s "foo"])] =
      .ok [("sessions", [Cell.i 42]), ("bounceRate", [Cell.f "3.14"]),
        ("customThing", [Cell.s "foo"])] :=
  c9_set_dtypes_idempotent
    [("sessions", [Cell.s "42"]), ("bounceRate", [Cell.s "3.14"]),
      ("customThing", [Cell.s "foo"])] _ (by rfl)

/-- A nonempty list is Python-truthy. -/
theorem pyTruthyList_of_ne_nil {α : Type} (l : List α) (h : l ≠ []) :
    pyTruthyList l = true := by
  cases l with
  | nil => exact absurd rfl h
  | cons a t => simp [pyTruthyList]

/-! ## C8: failed coercion leaves the table partially mutated -/

/-- C8 (amended): when some column fails coercion, `set_dtypes` fails as a
whole — no coerced table is returned — but the caller's frame is not left
unchanged: every column before the first failing one (here, a block `pre`
whose columns all coerce) has already been converted in place, while the
failing column and everything after it keep their original values. -/
theorem c8_amended (pre post : DataFrame) (name : String) (cells : List Cell)
    (pre2 : DataFrame) (e : String)
    (hpre : set_dtypes pre = .ok pre2)
    (hfail : coerceColumn (dtypeOf name) cells = .error e) :
    set_dtypes (pre ++ (name, cells) :: post) = .error (pre2 ++ (name, cells) :: post) := by
  induction pre generalizing pre2 with
  | nil =>
    simp only [set_dtypes] at hpre
    cases hpre
    simp only [List.nil_append, set_dtypes, hfail]
  | cons col rest ih =>
    obtain ⟨n, cs⟩ := col
    simp only [set_dtypes] at hpre
    cases hc : coerceColumn (dtypeOf n) cs with
    | error e2 => rw [hc] at hpre; cases hpre
    | ok cs2 =>
      rw [hc] at hpre
      cases hr : set_dtypes rest with
      | error r2 => rw [hr] at hpre; cases hpre
      | ok rest2 =>
        rw [hr] at hpre
        cases hpre
        simp only [List.cons_append, set_dtypes, hc, List.append_eq]
        rw [ih rest2 hr]

/-- Counterexample to C8 as stated: on a table whose first column coerces and
whose second column holds malformed numeric text, the failed `set_dtypes`
call leaves the frame with the first column already converted to integers,
so the un-coerced input table is no longer available unchanged. -/
theorem c8_counterexample :
    set_dtypes [("sessions", [Cell.s "42"]), ("users", [Cell.s "xx"])] =
      .error [("sessions", [Cell.i 42]), ("users", [Cell.s "xx"])] ∧
    ([("sessions", [Cell.i 42]), ("users", [Cell.s "xx"])] : DataFrame) ≠
      [("sessions", [Cell.s "42"]), ("users", [Cell.s "xx"])] :=
  ⟨by rfl, by decide⟩

/-- Witness for C8 (amended), instantiating the partial-mutation theorem at a
concrete two-column table. -/
theorem c8_witness :
    set_dtypes ([("sessions", [Cell.s "42"])] ++ ("users", [Cell.s "xx"]) :: []) =
      .error ([("sessions", [Cell.i 42])] ++ ("users", [Cell.s "xx"]) :: []) :=
  c8_amended [("sessions", [Cell.s "42"])] [] "users" [Cell.s "xx"]
    [("sessions", [Cell.i 42])] "ValueError: invalid literal for int" (by rfl) (by rfl)

/-! ## C5: header-name stripping -/

/-- C5 (amended): the normalizer's header transformation deletes every
occurrence of the literal three-character substring g a colon (so a name in
the ga namespace loses its prefix), any name without that substring — in
particular any name with no colon at all — is unchanged, and header order is
preserved (the heading loop is exactly a map over the headers). -/
theorem c5_amended (chs : List Header) (s : String) (hs : hasGa s.toList = false) :
    headingsOf chs = chs.map (fun h => stripGaStr h.name) ∧
    stripGaStr s = s ∧ stripGaStr "ga:fieldName" = "fieldName" :=
  ⟨headingsOf_eq_map chs, stripGaStr_of_not_hasGa s hs, by decide⟩

/-- Counterexample to C5 as stated: a header in a different namespace keeps
its namespace text (the claim demands it become "fieldName" for any
namespace), and the transformation is not idempotent. -/
theorem c5_counterexample :
    stripGaStr "mcf:fieldName" = "mcf:fieldName" ∧
    stripGaStr "mcf:fieldName" ≠ "fieldName" ∧
    stripGaStr (stripGaStr "gaga::x") ≠ stripGaStr "gaga::x" := by
  refine ⟨by decide, by decide, by decide⟩

/-- Witness for C5 (amended) at a concrete header list and a concrete
pattern-free name. -/
theorem c5_witness :
    headingsOf [⟨"ga:pagePath", "DIMENSION", "STRING"⟩] = ["pagePath"] ∧
    stripGaStr "source" = "source" := by
  have h := c5_amended [⟨"ga:pagePath", "DIMENSION", "STRING"⟩] "source" (by decide)
  refine ⟨?_, h.2.1⟩
  rw [h.1]
  decide

/-! ## C4: normalizer behavior on missing or empty fields -/

/-- C4 (amended): `results_to_pandas` returns an absent table (None) without
raising when columnHeaders or rows is present but empty; but when either key
is entirely absent from the response dictionary, the subscript access raises
KeyError instead of returning an empty table (the exception is only caught
upstream, inside `run_query`). -/
theorem c4_amended (r : Results) :
    (r.columnHeaders = none → results_to_pandas r = .error "KeyError: columnHeaders") ∧
    (r.columnHeaders = some [] → results_to_pandas r = .ok none) ∧
    (∀ chs, r.columnHeaders = some chs → chs ≠ [] → r.rows = none →
      results_to_pandas r = .error "KeyError: rows") ∧
    (∀ chs, r.columnHeaders = some chs → chs ≠ [] → r.rows = some [] →
      results_to_pandas r = .ok none) := by
  refine ⟨?_, ?_, ?_, ?_⟩
  · intro h
    simp [results_to_pandas, h]
  · intro h
    simp [results_to_pandas, h, pyTruthyList]
  · intro chs h hne hr
    simp [results_to_pandas, h, hr, pyTruthyList_of_ne_nil chs hne]
  · intro chs h hne hr
    simp [results_to_pandas, h, hr, pyTruthyList_of_ne_nil chs hne, pyTruthyList]

/-- Counterexample to C4 as stated: a raw page that truly lacks the
columnHeaders key, and one that lacks the rows key, make
`results_to_pandas` raise KeyError rather than return an empty table. -/
theorem c4_counterexample :
    results_to_pandas ⟨none, some [["a"]], some 1, some 1⟩ =
      .error "KeyError: columnHeaders" ∧
    results_to_pandas ⟨some [⟨"ga:pagePath", "DIMENSION", "STRING"⟩], none, some 1, some 1⟩ =
      .error "KeyError: rows" :=
  ⟨by rfl, by rfl⟩

/-- Witness for C4 (amended): a present-but-empty columnHeaders value yields
an absent table without an exception. -/
theorem c4_witness :
    results_to_pandas ⟨some [], some [["a"]], some 1, some 1⟩ = .ok none :=
  (c4_amended _).2.1 rfl

/-! ## C6: single-page queries -/

/-- C6 (amended): whenever the first page reports a positive totalResults no
greater than itemsPerPage, `get_results` makes exactly one executor call and
returns the first page unchanged (in particular with its rows in original
order).  Positivity is required: at totalResults equal to zero the accessors
return None and the page-count comparison raises instead of returning. -/
theorem c6_amended (exec : Executor) (p : Payload) (r : Results) (t k : Int)
    (hx : exec p = .ok r) (ht : r.totalResults = some t) (hk : r.itemsPerPage = some k)
    (h1 : 1 ≤ t) (h2 : t ≤ k) :
    get_results exec p = ([p], .ok r) := by
  have htt : pyTruthyInt t = true := by
    simp only [pyTruthyInt, bne_iff_ne, ne_eq, decide_eq_true_eq]
    omega
  have hk0 : ¬ (k = 0) := by omega
  have hle : ¬ (pyCeilDiv t k > 1) := not_lt.mpr (pyCeilDiv_le_one t k h1 h2)
  unfold get_results
  rw [hx]
  simp only [get_total_results, get_total_pages, get_items_per_page, ht, hk, htt,
    if_true, if_neg hk0]
  rw [if_neg hle]

/-- Counterexample to C6 as stated: a page reporting totalResults zero (which
is not greater than itemsPerPage, so the claim applies) makes `get_results`
raise a TypeError — one executor call happens, but no result carrying the
first page's rows is ever returned. -/
theorem c6_counterexample :
    (get_results (fun _ => .ok ⟨some [⟨"ga:date", "DIMENSION", "STRING"⟩], some [], some 0, some 1000⟩) dictEmpty).1.length = 1 ∧
    (get_results (fun _ => .ok ⟨some [⟨"ga:date", "DIMENSION", "STRING"⟩], some [], some 0, some 1000⟩) dictEmpty).2.toOption = none :=
  ⟨by rfl, by rfl⟩

/-- The concrete single-page response used by the C6 witness. -/
def c6page : Results :=
  ⟨some [⟨"ga:date", "DIMENSION", "STRING"⟩], some [["20200101"]], some 5, some 10⟩

/-- Witness for C6 (amended): with totalResults 5 and itemsPerPage 10, one
call and the unchanged first page. -/
theorem c6_witness :
    get_results (fun _ => .ok c6page) dictEmpty = ([dictEmpty], .ok c6page) :=
  c6_amended (fun _ => .ok c6page) dictEmpty c6page 5 10 rfl rfl rfl (by decide) (by decide)

/-! ## C10: zero totalResults is surfaced as a failure, not an empty result -/

/-- C10 (confirmed): when the first page reports totalResults zero, the
accessors `get_total_results` and `get_total_pages` both return None rather
than zero (the truthiness guard swallows the zero), so `get_results` hits the
comparison of None with 1 and fails instead of returning the page as an empty
result, and `run_query` therefore yields its failure outcome (None) for a
legitimately empty result set. -/
theorem c10_zero_totalResults (exec : Executor) (r : Results)
    (hx : ∀ q, exec q = .ok r) (h0 : r.totalResults = some 0) :
    get_total_results r = .ok none ∧ get_total_pages r = .ok none ∧
    (∀ p, (get_results exec p).2.toOption = none) ∧
    (∀ view_id payload output, (run_query exec view_id payload output).2 = none) := by
  have hgtr : get_total_results r = .ok none := by
    simp [get_total_results, h0, pyTruthyInt]
  have hgtp : get_total_pages r = .ok none := by
    simp [get_total_pages, h0, pyTruthyInt]
  have hgr : ∀ p, (get_results exec p).2.toOption = none := by
    intro p
    unfold get_results
    rw [hx p]
    simp only [hgtr, hgtp]
    unfold get_items_per_page
    cases r.itemsPerPage with
    | none => simp [Except.toOption]
    | some k => simp [Except.toOption]
  refine ⟨hgtr, hgtp, hgr, ?_⟩
  intro view_id payload output
  have h2 := hgr (mk_final_payload view_id payload)
  unfold run_query
  cases hge : (get_results exec (mk_final_payload view_id payload)).2 with
  | error e => simp [hge]
  | ok v => rw [hge] at h2; simp [Except.toOption] at h2

/-- The concrete zero-result response used by the C10 witness. -/
def c10page : Results :=
  ⟨some [⟨"ga:date", "DIMENSION", "STRING"⟩], some [], some 0, some 1000⟩

/-- Witness for C10 at a concrete executor that always returns a page with
totalResults zero. -/
theorem c10_witness :
    get_total_results c10page = .ok none ∧
    (run_query (fun _ => .ok c10page) "123456" dictEmpty "df").2 = none := by
  have h := c10_zero_totalResults (fun _ => .ok c10page) c10page (fun q => rfl) rfl
  exact ⟨h.1, h.2.2.2 "123456" dictEmpty "df"⟩

/-! ## C3: failure surfacing in run_query -/

/-- C3 (amended): whenever the paginated query fails — for example when an
executor call for a later page raises — `run_query` swallows the exception
and returns None, so the rows accumulated from earlier pages are discarded
and never reach the caller; but None is the very value a successful no-data
query returns, so the failure outcome is not distinguishable from valid
data (see the counterexample). -/
theorem c3_amended (exec : Executor) (view_id : String) (payload : Payload) (output : String)
    (h : (get_results exec (mk_final_payload view_id payload)).2.toOption = none) :
    (run_query exec view_id payload output).2 = none := by
  unfold run_query
  cases hge : (get_results exec (mk_final_payload view_id payload)).2 with
  | error e => simp [hge]
  | ok v => rw [hge] at h; simp [Except.toOption] at h

/-- The page served by the failing executor of the C3 scenario: three rows in
total, two per page, so a second page fetch is required. -/
def c3failPage : Results :=
  ⟨some [⟨"ga:pagePath", "DIMENSION", "STRING"⟩], some [["/a"], ["/b"]], some 3, some 2⟩

/-- An executor that serves the first page but raises on the second page
fetch (the call whose start offset is 3). -/
def c3failExec : Executor := fun p =>
  match p "start_index" with
  | some (.int 3) => .error "HttpError 500: backend error"
  | _ => .ok c3failPage

/-- A single-page response with a present-but-empty columnHeaders value: a
successful query that the normalizer maps to the absent table. -/
def c3emptyPage : Results := ⟨some [], some [["/a"]], some 1, some 1000⟩

/-- Counterexample to C3 as stated: the failing query returns None — with the
two already-fetched rows discarded — but a fully successful no-data query
returns the same None, so the failure is a value sharing the success return,
not a distinguishable error outcome. -/
theorem c3_counterexample :
    (run_query c3failExec "123" dictEmpty "df").2 = none ∧
    (get_results (fun _ => .ok c3emptyPage) (mk_final_payload "123" dictEmpty)).2.toOption.isSome = true ∧
    (run_query (fun _ => .ok c3emptyPage) "123" dictEmpty "df").2 = none :=
  ⟨by rfl, by rfl, by rfl⟩

/-- Witness for C3 (amended): applying the theorem at the concrete failing
executor, in raw output mode. -/
theorem c3_witness : (run_query c3failExec "999" dictEmpty "raw").2 = none :=
  c3_amended c3failExec "999" dictEmpty "raw" (by rfl)

/-! ## C2: ownership of the identifier field -/

/-- Merging the pagination-offset entry into a payload does not change the
identifier entry. -/
theorem pyMerge_startIndex_ids (p : Payload) (v : PVal) :
    pyMerge p (dictOne "start_index" v) "ids" = p "ids" := by
  simp [pyMerge, dictOne]

/-- The pagination-offset update does not change the identifier entry. -/
theorem nextPayload_ids (p : Payload) (start : Int) :
    nextPayload p start "ids" = p "ids" :=
  pyMerge_startIndex_ids p _

/-- Every payload the pagination loop sends to the executor carries the same
identifier entry as the payload the loop started from. -/
theorem pageLoop_trace_ids (exec : Executor) (total : Int) (ipp : Option Int) :
    ∀ (fuel : Nat) (start : Int) (p : Payload) (acc : List Row) (q : Payload),
      q ∈ (pageLoop exec total ipp fuel start p acc).1 → q "ids" = p "ids" := by
  intro fuel
  induction fuel with
  | zero =>
    intro start p acc q hq
    simp [pageLoop] at hq
  | succ n ih =>
    intro start p acc q hq
    rw [pageLoop] at hq
    by_cases hle : start ≤ total
    · rw [if_pos hle] at hq
      cases hex : exec (nextPayload p start) with
      | error e =>
        simp only [hex] at hq
        simp at hq
        rw [hq]
        exact nextPayload_ids p start
      | ok nr =>
        simp only [hex] at hq
        cases hgr : get_rows nr with
        | error e =>
          simp only [hgr] at hq
          simp at hq
          rw [hq]
          exact nextPayload_ids p start
        | ok o =>
          simp only [hgr] at hq
          cases o with
          | none =>
            simp at hq
            rw [hq]
            exact nextPayload_ids p start
          | some next_rows =>
            cases ipp with
            | none =>
              simp at hq
              rw [hq]
              exact nextPayload_ids p start
            | some k =>
              simp at hq
              cases hq with
              | inl hq =>
                rw [hq]
                exact nextPayload_ids p start
              | inr hq =>
                have h2 := ih (k + start) _ _ q hq
                rw [h2]
                exact nextPayload_ids p start
    · rw [if_neg hle] at hq
      simp at hq

/-- Every payload `get_results` sends to the executor carries the identifier
entry of the payload it was given. -/
theorem get_results_trace_ids (exec : Executor) (p : Payload) (q : Payload)
    (hq : q ∈ (get_results exec p).1) : q "ids" = p "ids" := by
  unfold get_results at hq
  cases hex : exec p with
  | error e =>
    simp only [hex] at hq
    simp at hq
    rw [hq]
  | ok results =>
    simp only [hex] at hq
    cases h1 : get_total_results results with
    | error e => simp only [h1] at hq; simp at hq; rw [hq]
    | ok total_results =>
      simp only [h1] at hq
      cases h2 : get_total_pages results with
      | error e => simp only [h2] at hq; simp at hq; rw [hq]
      | ok total_pages =>
        simp only [h2] at hq
        cases h3 : get_items_per_page results with
        | error e => simp only [h3] at hq; simp at hq; rw [hq]
        | ok items_per_page =>
          simp only [h3] at hq
          cases total_pages with
          | none => simp at hq; rw [hq]
          | some tp =>
            by_cases htp : tp > 1
            · simp only [htp, if_true] at hq
              cases total_results with
              | none => simp at hq; rw [hq]
              | some total =>
                simp at hq
                cases hq with
                | inl hq => rw [hq]
                | inr hq => exact pageLoop_trace_ids exec total items_per_page _ 0 p [] q hq
            · simp only [htp, if_false] at hq
              simp at hq
              rw [hq]

/-- C2 (amended): when the caller's payload does not itself contain the
identifier key, every payload `run_query` sends to the executor carries the
identifier entry owned by the façade — the string "ga:" followed by the view
id.  The restriction is necessary: because the merge on source line 46 puts
the caller's payload on the winning side, a caller-supplied identifier key
overrides the façade's (see the counterexample). -/
theorem c2_amended (exec : Executor) (view_id : String) (payload : Payload) (output : String)
    (h : payload "ids" = none) :
    ∀ q ∈ (run_query exec view_id payload output).1,
      q "ids" = some (.str ("ga:" ++ view_id)) := by
  intro q hq
  have h1 : (run_query exec view_id payload output).1
      = (get_results exec (mk_final_payload view_id payload)).1 := rfl
  rw [h1] at hq
  have h2 := get_results_trace_ids exec (mk_final_payload view_id payload) q hq
  rw [h2]
  simp [mk_final_payload, pyMerge, dictOne, h]

/-- Counterexample to C2 as stated: a caller whose payload already contains
an identifier entry wins the merge, so the payload sent to the executor does
not carry the façade's identifier for the requested view id. -/
theorem c2_counterexample :
    ((run_query (fun _ => .error "HttpError 401") "123"
        (dictOne "ids" (.str "ga:999")) "raw").1.map (fun p => p "ids"))
      = [some (PVal.str "ga:999")] ∧
    some (PVal.str "ga:999") ≠ some (PVal.str ("ga:" ++ "123")) :=
  ⟨by rfl, by decide⟩

/-- The failing executor of the C2 witness. -/
def c2wExec : Executor := fun _ => .error "HttpError 401: unauthorized"

/-- Witness for C2 (amended): with an empty caller payload, the only payload
sent carries the façade's identifier entry. -/
theorem c2_witness :
    ((run_query c2wExec "123" dictEmpty "raw").1.map (fun p => p "ids"))
      = [some (PVal.str ("ga:" ++ "123"))] := by
  have h := c2_amended c2wExec "123" dictEmpty "raw" rfl
  have ht : (run_query c2wExec "123" dictEmpty "raw").1
      = [mk_final_payload "123" dictEmpty] := rfl
  rw [ht] at h ⊢
  simp only [List.map_cons, List.map_nil]
  rw [h (mk_final_payload "123" dictEmpty) (by simp)]

/-! ## C1 and C7: multi-page pagination scenarios -/

/-- A data row holding its one-based index as text, so that merged order is
visible in the theorems. -/
def rowN (n : Nat) : Row := [toString n]

/-- The column header shared by the pagination scenarios. -/
def gaHeader : Header := ⟨"ga:pagePath", "DIMENSION", "STRING"⟩

/-- First page of the C1 scenario: totalResults 2500, itemsPerPage 1000,
rows 1 to 1000. -/
def c1page1 : Results :=
  ⟨some [gaHeader], some ((List.range' 1 1000).map rowN), some 2500, some 1000⟩

/-- The remote source of the C1 scenario: three pages of 1000, 1000 and 500
rows, keyed by the one-based start offset the engine sends; the offset-free
initial call returns the first page, any other offset is rejected. -/
def c1exec : Executor := fun p =>
  match p "start_index" with
  | none => .ok c1page1
  | some (.int 1) => .ok c1page1
  | some (.int 1001) =>
    .ok ⟨some [gaHeader], some ((List.range' 1001 1000).map rowN), some 2500, some 1000⟩
  | some (.int 2001) =>
    .ok ⟨some [gaHeader], some ((List.range' 2001 500).map rowN), some 2500, some 1000⟩
  | _ => .error "400 invalid parameter start-index"

/-- Three consecutive mapped ranges merge into one mapped range: the shape
of the pagination accumulator for three pages. -/
theorem map_range'_merge3 (f : Nat → Row) (s m n p : Nat) :
    (([] ++ (List.range' s m).map f) ++ (List.range' (s + m) n).map f)
      ++ (List.range' (s + m + n) p).map f = (List.range' s (m + n + p)).map f := by
  rw [List.nil_append, ← List.map_append, ← List.map_append, List.range'_append_1]
  rw [show s + m + n = s + (n + m) by omega, List.range'_append_1]
  rw [show p + (n + m) = m + n + p by omega]

/-- The merged row accumulation of the C1 scenario equals the straight
enumeration of rows 1 to 2500, i.e. the pages in retrieval order. -/
theorem c1_rows_merge :
    (([] ++ (List.range' 1 1000).map rowN) ++ (List.range' 1001 1000).map rowN)
      ++ (List.range' 2001 500).map rowN = (List.range' 1 2500).map rowN := by
  exact map_range'_merge3 rowN 1 1000 1000 500

set_option maxRecDepth 8000 in
/-- Counterexample to C1 as stated: in the 2500-row scenario the engine does
not make exactly 3 executor calls — the initial metadata call precedes the
loop, which then re-fetches page one, so 4 calls go out. -/
theorem c1_counterexample :
    ¬ ((run_query c1exec "123" dictEmpty "raw").1.length = 3) := by
  have h4 : (run_query c1exec "123" dictEmpty "raw").1.length = 4 := by rfl
  omega

set_option maxRecDepth 8000 in
/-- C1 (amended): in the 2500-row scenario reached via `run_query`, the
engine makes exactly 4 executor calls — one initial metadata fetch plus one
loop fetch per page, the first page being fetched twice — and returns a
merged result whose rows are the concatenation of the three pages, which is
the 2500 rows in page-retrieval order; the other fields are copied from the
first page. -/
theorem c1_amended_scenario :
    (run_query c1exec "123" dictEmpty "raw").1.length = 4 ∧
    (run_query c1exec "123" dictEmpty "raw").2 =
      some (Sum.inr ⟨some [gaHeader],
        some ((([] ++ (List.range' 1 1000).map rowN) ++ (List.range' 1001 1000).map rowN)
          ++ (List.range' 2001 500).map rowN),
        some 2500, some 1000⟩) ∧
    (([] ++ (List.range' 1 1000).map rowN) ++ (List.range' 1001 1000).map rowN)
      ++ (List.range' 2001 500).map rowN = (List.range' 1 2500).map rowN :=
  ⟨by rfl, by rfl, c1_rows_merge⟩

/-- First page of the C7 scenario: totalResults 2000 is an exact positive
multiple of itemsPerPage 1000. -/
def c7page1 : Results :=
  ⟨some [gaHeader], some ((List.range' 1 1000).map rowN), some 2000, some 1000⟩

/-- The remote source of the C7 scenario: two full pages, and an empty rows
list for the boundary fetch at start offset 2001 (one past the last row). -/
def c7exec : Executor := fun p =>
  match p "start_index" with
  | none => .ok c7page1
  | some (.int 1) => .ok c7page1
  | some (.int 1001) =>
    .ok ⟨some [gaHeader], some ((List.range' 1001 1000).map rowN), some 2000, some 1000⟩
  | some (.int 2001) => .ok ⟨some [gaHeader], some [], some 2000, some 1000⟩
  | _ => .error "400 invalid parameter start-index"

set_option maxRecDepth 8000 in
/-- C7 (code bug): with totalResults an exact positive multiple of
itemsPerPage, the loop does execute the boundary iteration — the fourth and
last payload sent carries start offset totalResults plus one — but the claim
and the spec then expect the accumulated rows to be returned, whereas the
code raises: the boundary page has no rows, `get_rows` returns None for it,
and the list-plus-None row append raises TypeError, so `get_results` fails
on every such query instead of returning the merged result. -/
theorem c7_boundary_typeerror :
    (get_results c7exec dictEmpty).1.length = 4 ∧
    ((get_results c7exec dictEmpty).1.getLast?).map (fun p => p "start_index")
      = some (some (PVal.int 2001)) ∧
    (get_results c7exec dictEmpty).2 =
      .error "TypeError: can only concatenate list (not NoneType) to list" :=
  ⟨by rfl, by rfl, by rfl⟩

end Gapandas
